import Mathlib

/-! Shallow embedding of `util.py` from the `pebble` repository: the Timer
state machine, the LogStep/Logger pair, the Config value and its global
singleton, the Dataset bundle, and the metadata-assembly builders with
their host-environment probes.

Python floats are modelled as `ℚ`, Python ints as `Int`, Python `None`
as `Option.none`.  A Python call that can raise is modelled as
`Except String α`, the string standing for the exception; in-place
mutation is modelled by explicit state passing (each method returns the
updated object).  Each call to `time.time()` inside a method body is a
separate parameter of the Lean function, in source order, so that the
two samples taken by `start` (and by `record`) stay distinct.
-/

namespace Pebble

/-- Values that can appear in the Python dicts built by this module
(`LogStep.__dict__`, the metadata records, `Config` attributes). -/
inductive MetaVal where
  | str (s : String)
  | int (n : Int)
  | rat (q : ℚ)
  | bool (b : Bool)
  | intList (l : List Int)
  | strList (l : List String)
deriving DecidableEq, Repr

/-! Timer (util.py lines 53-83).

`__init__` sets `start_time`, `last_record`, `end_time` to `None`.
`start` samples the clock twice (once for `start_time`, once for
`last_record`); `record` samples it twice (once for the delta, once for
the new `last_record`); `stop` samples it once. -/

structure Timer where
  start_time : Option ℚ
  last_record : Option ℚ
  end_time : Option ℚ
deriving DecidableEq, Repr

def Timer.init : Timer := ⟨none, none, none⟩

/-- Model of `Timer.start`: raises if `start_time is not None`; otherwise sets
`start_time` to the first clock sample and `last_record` to the second. -/
def Timer.start (t : Timer) (now1 now2 : ℚ) : Except String Unit × Timer :=
  match t.start_time with
  | some _ =>
      (Except.error
        "Timer is already running. Use stop() to stop it before starting again.", t)
  | none =>
      (Except.ok (), { t with start_time := some now1, last_record := some now2 })

/-- Model of `Timer.stop`: raises if `start_time is None`; otherwise sets
`end_time` to the clock sample, computes `end_time - start_time`,
resets all three timestamps to `None` and returns the elapsed time. -/
def Timer.stop (t : Timer) (now : ℚ) : Except String ℚ × Timer :=
  match t.start_time with
  | none => (Except.error "Timer is not running. Use start() to start it.", t)
  | some st => (Except.ok (now - st), ⟨none, none, none⟩)

/-- Model of `Timer.record`: raises if `last_record is None`; otherwise returns
`current - last_record` (first clock sample) and resets `last_record`
to the second clock sample.  `start_time` and `end_time` are untouched. -/
def Timer.record (t : Timer) (now1 now2 : ℚ) : Except String ℚ × Timer :=
  match t.last_record with
  | none => (Except.error "Timer is not running. Use start() to start it.", t)
  | some lr => (Except.ok (now1 - lr), { t with last_record := some now2 })

/-- N consecutive `record()` calls; each element of the input list is the
pair of clock samples taken by one call. -/
def Timer.recordN (t : Timer) : List (ℚ × ℚ) → List (Except String ℚ) × Timer
  | [] => ([], t)
  | (n1, n2) :: rest =>
      let (r, t1) := t.record n1 n2
      let (rs, tf) := t1.recordN rest
      (r :: rs, tf)

/-- Timer states reachable through the public interface from a freshly
constructed Timer. -/
inductive Timer.Reachable : Timer → Prop where
  | init : Timer.Reachable Timer.init
  | start (t : Timer) (n1 n2 : ℚ) : Timer.Reachable t →
      Timer.Reachable (t.start n1 n2).2
  | stop (t : Timer) (n : ℚ) : Timer.Reachable t →
      Timer.Reachable (t.stop n).2
  | record (t : Timer) (n1 n2 : ℚ) : Timer.Reachable t →
      Timer.Reachable (t.record n1 n2).2

/-! LogStep and Logger (util.py lines 12-51). -/

structure LogStep where
  epoch : Int
  eval_acc : ℚ
  sample_time : ℚ
  load_time : ℚ
  forward_time : ℚ
  backward_time : ℚ
  cur_epoch_time : ℚ
  acc_epoch_time : ℚ
  evaluate_time : ℚ
  loss : ℚ
deriving DecidableEq, Repr

/-- Model of `LogStep.dict`: returns `self.__dict__`: the field-name-to-value
mapping in attribute-insertion order, which for the dataclass is field
declaration order. -/
def LogStep.dict (s : LogStep) : List (String × MetaVal) :=
  [("epoch", MetaVal.int s.epoch),
   ("eval_acc", MetaVal.rat s.eval_acc),
   ("sample_time", MetaVal.rat s.sample_time),
   ("load_time", MetaVal.rat s.load_time),
   ("forward_time", MetaVal.rat s.forward_time),
   ("backward_time", MetaVal.rat s.backward_time),
   ("cur_epoch_time", MetaVal.rat s.cur_epoch_time),
   ("acc_epoch_time", MetaVal.rat s.acc_epoch_time),
   ("evaluate_time", MetaVal.rat s.evaluate_time),
   ("loss", MetaVal.rat s.loss)]

structure Logger where
  steps : List LogStep
deriving DecidableEq, Repr

/-- Model of `Logger.__init__`: sets `steps` to the empty list. -/
def Logger.init : Logger := ⟨[]⟩

/-- Model of `Logger.append`: appends the step at the end of `steps`. -/
def Logger.append (l : Logger) (s : LogStep) : Logger := ⟨l.steps ++ [s]⟩

/-- Model of `Logger.list`: builds a fresh list holding `step.dict()` for each
stored step, in order; it does not modify the Logger. -/
def Logger.list (l : Logger) : List (List (String × MetaVal)) :=
  l.steps.map LogStep.dict

/-! Config and the global singleton (util.py lines 86-134).

The class body declares sixteen fields (including `world_size`), but the
hand-written `__init__` that overrides the dataclass-generated one never
assigns `self.world_size` (the assignment is commented out) and
additionally assigns the undeclared `self.num_layers`.  `Config` below
is the object as actually constructed; `Config.initAttrs` records the
attribute assignments performed by `__init__`, in source order, for
reasoning about which attributes exist on an instance. -/

/-- The externally parsed argument object handed to `Config.__init__`
(the argparse namespace built by `get_args`). -/
structure Args where
  sample_mode : String
  batch_size : Int
  fanouts : List Int
  num_epoch : Int
  hid_size : Int
  num_layers : Int
  num_head : Int
  lr : ℚ
  weight_decay : ℚ
  dropout : ℚ
  world_size : Int
  num_partition : Int
  graph_name : String
  data_dir : String
  model : String
  log_file : String
  eval : Bool
deriving DecidableEq, Repr

/-- A constructed `Config`: exactly the attributes `__init__` assigns. -/
structure Config where
  sample_mode : String
  batch_size : Int
  fanouts : List Int
  num_epoch : Int
  hid_size : Int
  num_layers : Int
  num_head : Int
  lr : ℚ
  weight_decay : ℚ
  dropout : ℚ
  num_partition : Int
  graph_name : String
  data_dir : String
  model : String
  log_file : String
  eval : Bool
deriving DecidableEq, Repr

/-- Model of `Config.__init__`, as the value it leaves behind. -/
def Config.ofArgs (args : Args) : Config :=
  { sample_mode := args.sample_mode
    batch_size := args.batch_size
    fanouts := args.fanouts
    num_epoch := args.num_epoch
    hid_size := args.hid_size
    num_layers := args.num_layers
    num_head := args.num_head
    lr := args.lr
    weight_decay := args.weight_decay
    dropout := args.dropout
    num_partition := args.num_partition
    graph_name := args.graph_name
    data_dir := args.data_dir
    model := args.model
    log_file := args.log_file
    eval := args.eval }

/-- The fields declared in the `Config` class body (lines 90-105). -/
def configDeclaredFields : List String :=
  ["sample_mode", "batch_size", "fanouts", "num_epoch", "hid_size",
   "num_head", "lr", "weight_decay", "dropout", "world_size",
   "num_partition", "graph_name", "data_dir", "model", "log_file", "eval"]

/-- The instance attributes assigned by `Config.__init__` (lines
107-124), in assignment order.  Looking an attribute up in this list
models `getattr`: `none` is an `AttributeError` (annotations without an
assignment create no attribute). -/
def Config.initAttrs (args : Args) : List (String × MetaVal) :=
  [("sample_mode", MetaVal.str args.sample_mode),
   ("batch_size", MetaVal.int args.batch_size),
   ("fanouts", MetaVal.intList args.fanouts),
   ("num_epoch", MetaVal.int args.num_epoch),
   ("hid_size", MetaVal.int args.hid_size),
   ("num_layers", MetaVal.int args.num_layers),
   ("num_head", MetaVal.int args.num_head),
   ("lr", MetaVal.rat args.lr),
   ("weight_decay", MetaVal.rat args.weight_decay),
   ("dropout", MetaVal.rat args.dropout),
   ("num_partition", MetaVal.int args.num_partition),
   ("graph_name", MetaVal.str args.graph_name),
   ("data_dir", MetaVal.str args.data_dir),
   ("model", MetaVal.str args.model),
   ("log_file", MetaVal.str args.log_file),
   ("eval", MetaVal.bool args.eval)]

/-- Initial global: `gconfig = None` (line 86): the module-level global before any
registration. -/
def gconfigInit : Option Config := none

/-- Model of `Config.set_global_config`: overwrite the global with the argument. -/
def set_global_config (config : Config) (_gconfig : Option Config) :
    Option Config :=
  some config

/-- Model of `Config.get_global_config`: read the global. -/
def get_global_config (gconfig : Option Config) : Option Config :=
  gconfig

/-! Dataset (util.py lines 136-163). -/

/-- A torch tensor, abstracted to its payload and the device it lives
on; `Tensor.to` returns the device-moved version. -/
structure Tensor where
  data : List ℚ
  device : String
deriving DecidableEq, Repr

def Tensor.to (t : Tensor) (device : String) : Tensor :=
  { t with device := device }

/-- A DGL graph handle, abstracted to what the module reads from it:
`num_nodes()` and `num_edges()`. -/
structure DGLGraph where
  num_nodes : Int
  num_edges : Int
deriving DecidableEq, Repr

structure Dataset where
  graph : DGLGraph
  feat : Tensor
  label : Tensor
  train_mask : Tensor
  val_mask : Tensor
  test_mask : Tensor
  num_classes : Int
  in_feats : Int
deriving DecidableEq, Repr

/-- Model of `Dataset.to`: reassigns `label` and the three masks to their
device-moved versions; no other field is touched. -/
def Dataset.to (d : Dataset) (device : String) : Dataset :=
  { d with
    label := d.label.to device
    train_mask := d.train_mask.to device
    val_mask := d.val_mask.to device
    test_mask := d.test_mask.to device }

/-! Host-environment probes (util.py lines 191-215).

Python string helpers used by the probes, with Python semantics. -/

/-- Python `str.strip()`: drop whitespace from both ends. -/
def pyStrip (s : String) : String :=
  ⟨((s.data.dropWhile Char.isWhitespace).reverse.dropWhile
      Char.isWhitespace).reverse⟩

def findSubAux (pat : List Char) : List Char → Nat → Option Nat
  | [], i => if pat.isEmpty then some i else none
  | c :: rest, i =>
      if pat.isPrefixOf (c :: rest) then some i else findSubAux pat rest (i + 1)

/-- Python `str.find`: index of the first occurrence, `-1` if absent. -/
def pyFind (s pat : String) : Int :=
  match findSubAux pat.data s.data 0 with
  | some i => (i : Int)
  | none => -1

/-- Python `s[start:]` for a non-negative `start` (the only way it is
used here: `find` returns at least `-1`, and 11 is added to it). -/
def pySliceFrom (s : String) (start : Int) : String :=
  ⟨s.data.drop start.toNat⟩

/-- Outcome of the `nvidia-smi` call made by `subprocess.run`: the
executable may be missing (`FileNotFoundError`), or it ran and yielded
an exit code, stdout and stderr. -/
inductive GpuEnv where
  | absent
  | run (returncode : Int) (stdout : String) (stderr : String)
deriving DecidableEq, Repr

/-- Outcome of `subprocess.check_output("lscpu", shell=True)`: the shell
itself always exists, so a missing `lscpu` surfaces as a non-zero shell
exit code (127), never as `FileNotFoundError`. -/
structure CpuEnv where
  returncode : Int
  stdout : String
deriving DecidableEq, Repr

/-- Model of `get_cuda_gpu_model`: a missing executable is caught
(`except FileNotFoundError`), a diagnostic is printed and `[]` is
returned; a non-zero exit code likewise prints a diagnostic and returns
`[]`; otherwise stdout is stripped and split into one name per line.
No path raises, so the result is always `Except.ok`. -/
def get_cuda_gpu_model (env : GpuEnv) : Except String (List String) :=
  match env with
  | GpuEnv.absent => Except.ok []
  | GpuEnv.run returncode stdout _stderr =>
      if returncode ≠ 0 then Except.ok []
      else Except.ok ((pyStrip stdout).splitOn "\n")

/-- Model of `get_cpu_model`: `check_output` raises `CalledProcessError` on a
non-zero exit code and nothing catches it; on success the output is
stripped, scanned for `"Model name:"`, sliced just past that label, and
the first line of the stripped remainder is returned. -/
def get_cpu_model (env : CpuEnv) : Except String String :=
  if env.returncode ≠ 0 then
    Except.error "CalledProcessError: command lscpu returned non-zero exit status"
  else
    let ret := pyStrip env.stdout
    let idx := pyFind ret "Model name:"
    let cpu_model := ((pyStrip (pySliceFrom ret (idx + 11))).splitOn "\n").headD ""
    Except.ok cpu_model

/-! Metadata builders (util.py lines 217-265).

The Python dicts are modelled as association lists in key-insertion
order.  `get_cpu_model` is called in the middle of assembly; if it
raises, the partially built local dict is discarded and the exception
propagates, which is exactly `Except` bind. -/

def get_train_meta (config : Config) : List (String × MetaVal) :=
  [("weight_decay", MetaVal.rat config.weight_decay),
   ("learning_rate", MetaVal.rat config.lr),
   ("dropout", MetaVal.rat config.dropout)]

def get_full_meta (cenv : CpuEnv) (config : Config) (data : Dataset) :
    Except String (List (String × MetaVal)) := do
  let cpu ← get_cpu_model cenv
  Except.ok
    [("graph_name", MetaVal.str config.graph_name),
     ("train_mode", MetaVal.str "full"),
     ("cpu_model", MetaVal.str cpu),
     ("num_node", MetaVal.int data.graph.num_nodes),
     ("num_edge", MetaVal.int data.graph.num_edges),
     ("feat_width", MetaVal.int data.in_feats),
     ("num_epoch", MetaVal.int config.num_epoch),
     ("num_partition", MetaVal.int config.num_partition)]

def get_minibatch_meta (cenv : CpuEnv) (config : Config) (data : Dataset) :
    Except String (List (String × MetaVal)) := do
  let cpu ← get_cpu_model cenv
  Except.ok
    [("graph_name", MetaVal.str config.graph_name),
     ("train_mode", MetaVal.str "minibatch"),
     ("num_node", MetaVal.int data.graph.num_nodes),
     ("num_edge", MetaVal.int data.graph.num_edges),
     ("cpu_model", MetaVal.str cpu),
     ("feat_width", MetaVal.int data.in_feats),
     ("batch_size", MetaVal.int config.batch_size),
     ("fanouts", MetaVal.intList config.fanouts),
     ("num_epoch", MetaVal.int config.num_epoch),
     ("num_partition", MetaVal.int config.num_partition)]

def get_quiver_meta (cenv : CpuEnv) (genv : GpuEnv) (config : Config)
    (data : Dataset) : Except String (List (String × MetaVal)) := do
  let cpu ← get_cpu_model cenv
  let gpu ← get_cuda_gpu_model genv
  Except.ok
    [("graph_name", MetaVal.str config.graph_name),
     ("system_name", MetaVal.str "quiver"),
     ("train_mode", MetaVal.str "minibatch"),
     ("sample_mode", MetaVal.str config.sample_mode),
     ("num_node", MetaVal.int data.graph.num_nodes),
     ("num_edge", MetaVal.int data.graph.num_edges),
     ("cpu_model", MetaVal.str cpu),
     ("gpu_model", MetaVal.strList gpu),
     ("feat_width", MetaVal.int data.in_feats),
     ("batch_size", MetaVal.int config.batch_size),
     ("fanouts", MetaVal.intList config.fanouts),
     ("num_epoch", MetaVal.int config.num_epoch),
     ("num_partition", MetaVal.int config.num_partition)]

/-! Specification helpers and concrete fixtures. -/

/-- Expected return values of consecutive `record()` calls: each delta is
the first clock sample of the call minus the `last_record` left by the
previous record-or-start call. -/
def deltasFrom : ℚ → List (ℚ × ℚ) → List ℚ
  | _, [] => []
  | lr, (n1, n2) :: rest => (n1 - lr) :: deltasFrom n2 rest

/-- Value of `last_record` after consecutive `record()` calls. -/
def lastSampleFrom : ℚ → List (ℚ × ℚ) → ℚ
  | lr, [] => lr
  | _, (_, n2) :: rest => lastSampleFrom n2 rest

/-- Monotone-clock assumption: the clock samples taken by consecutive
`record()` calls are non-decreasing, starting from the current
`last_record` value. -/
def chainFrom : ℚ → List (ℚ × ℚ) → Prop
  | _, [] => True
  | lr, (n1, n2) :: rest => lr ≤ n1 ∧ n1 ≤ n2 ∧ chainFrom n2 rest

/-- Concrete argparse namespace (the `get_args` defaults). -/
def argsA : Args :=
  { sample_mode := "gpu", batch_size := 1024, fanouts := [15, 15, 15]
    num_epoch := 1, hid_size := 256, num_layers := 3, num_head := 4
    lr := 1 / 200, weight_decay := 1 / 2000, dropout := 1 / 2
    world_size := 1, num_partition := 1, graph_name := "ogbn-arxiv"
    data_dir := "/data", model := "gat", log_file := "log.json", eval := true }

def cfgA : Config := Config.ofArgs argsA

def tensorA : Tensor := ⟨[0], "cpu"⟩

/-- Concrete dataset: 10 nodes, 20 edges, feature width 8. -/
def dsA : Dataset := ⟨⟨10, 20⟩, tensorA, tensorA, tensorA, tensorA, tensorA, 40, 8⟩

/-- Environment where `lscpu` succeeds. -/
def cpuEnvOk : CpuEnv := ⟨0, "Architecture: x86_64\nModel name: TestCPU\nCores: 4"⟩

/-- Environment where `lscpu` is absent: the shell exits with 127. -/
def cpuEnvFail : CpuEnv := ⟨127, ""⟩

/-- Concrete log step. -/
def stepA : LogStep := ⟨0, 3 / 10, 1, 2, 3, 4, 5, 6, 7, 12 / 10⟩

/-! Theorems. -/

/-- On every reachable Timer, `start_time` and `last_record` are set or
unset together, and `end_time` is never left set: a Timer with no start
timestamp (Idle, in the spec's words) has all three timestamps unset. -/
theorem Timer.reachable_invariant (t : Timer) (h : Timer.Reachable t) :
    (t.start_time = none ↔ t.last_record = none) ∧ t.end_time = none := by
  induction h with
  | init => exact ⟨Iff.rfl, rfl⟩
  | start t n1 n2 _ ih =>
      cases hs : t.start_time with
      | none => simp [Timer.start, hs, ih.2]
      | some v => simpa [Timer.start, hs] using ih
  | stop t n _ ih =>
      cases hs : t.start_time with
      | none => simpa [Timer.stop, hs] using ih
      | some v => simp [Timer.stop, hs]
  | record t n1 n2 _ ih =>
      cases hs : t.last_record with
      | none => simpa [Timer.record, hs] using ih
      | some v =>
          have hst : ¬ t.start_time = none := fun h0 => by
            have h1 := ih.1.mp h0
            rw [hs] at h1
            exact Option.noConfusion h1
          simp [Timer.record, hs, ih.2, hst]

/-- C2: on every reachable Timer, `start()` while Running fails with the
misuse error and leaves the Timer unchanged, and `stop()` and `record()`
while Idle (no start timestamp) fail with the misuse error and leave the
Timer unchanged. -/
theorem timer_misuse_atomic (t : Timer) (hr : Timer.Reachable t) :
    (∀ n1 n2 : ℚ, t.start_time ≠ none →
      t.start n1 n2 =
        (Except.error
          "Timer is already running. Use stop() to stop it before starting again.",
         t)) ∧
    (t.start_time = none →
      (∀ n : ℚ,
        t.stop n =
          (Except.error "Timer is not running. Use start() to start it.", t)) ∧
      (∀ n1 n2 : ℚ,
        t.record n1 n2 =
          (Except.error "Timer is not running. Use start() to start it.", t))) := by
  refine ⟨?_, ?_⟩
  · intro n1 n2 hrun
    cases hs : t.start_time with
    | none => exact absurd hs hrun
    | some v => simp [Timer.start, hs]
  · intro hidle
    have hlr : t.last_record = none :=
      (Timer.reachable_invariant t hr).1.mp hidle
    exact ⟨fun n => by simp [Timer.stop, hidle],
           fun n1 n2 => by simp [Timer.record, hlr]⟩

/-- Witness for C2 at concrete inputs: `stop` on a fresh (Idle) Timer
errors and leaves it unchanged; `start` on a started Timer errors and
leaves it unchanged. -/
theorem timer_misuse_atomic_witness :
    Timer.init.stop 3 =
      (Except.error "Timer is not running. Use start() to start it.", Timer.init) ∧
    (Timer.init.start 1 2).2.start 3 4 =
      (Except.error
        "Timer is already running. Use stop() to stop it before starting again.",
       (Timer.init.start 1 2).2) := by
  constructor
  · exact ((timer_misuse_atomic Timer.init Timer.Reachable.init).2 rfl).1 3
  · exact (timer_misuse_atomic (Timer.init.start 1 2).2
      (Timer.Reachable.start Timer.init 1 2 Timer.Reachable.init)).1 3 4
      (by simp [Timer.init, Timer.start])

/-- C3: after a successful `start()` and with a monotone clock, `stop()`
returns the non-negative elapsed time since that `start()`, clears all
internal timestamps (leaving exactly the freshly constructed state, i.e.
Idle), and an immediately following `start()` succeeds. -/
theorem timer_start_stop (t : Timer) (n1 n2 n3 : ℚ)
    (hidle : t.start_time = none) (hmono : n1 ≤ n3) :
    (t.start n1 n2).1 = Except.ok () ∧
    ((t.start n1 n2).2.stop n3).1 = Except.ok (n3 - n1) ∧
    0 ≤ n3 - n1 ∧
    ((t.start n1 n2).2.stop n3).2 = Timer.init ∧
    (∀ m1 m2 : ℚ, (((t.start n1 n2).2.stop n3).2.start m1 m2).1 = Except.ok ()) := by
  refine ⟨?_, ?_, ?_, ?_, ?_⟩
  · simp [Timer.start, hidle]
  · simp [Timer.start, Timer.stop, hidle]
  · exact sub_nonneg.mpr hmono
  · simp [Timer.start, Timer.stop, Timer.init, hidle]
  · intro m1 m2
    simp [Timer.start, Timer.stop, Timer.init, hidle]

/-- Witness for C3: a fresh Timer started at time 1 and stopped at time 4
yields elapsed 3 and is ready to start again. -/
theorem timer_start_stop_witness :
    (Timer.init.start 1 2).1 = Except.ok () ∧
    ((Timer.init.start 1 2).2.stop 4).1 = Except.ok 3 ∧
    ((Timer.init.start 1 2).2.stop 4).2 = Timer.init := by
  have h := timer_start_stop Timer.init 1 2 4 rfl (by norm_num)
  refine ⟨h.1, ?_, h.2.2.2.1⟩
  have h2 := h.2.1
  norm_num at h2
  exact h2

/-- Behaviour of N consecutive `record()` calls on a Timer whose
`last_record` is set, under a monotone clock: the calls return exactly
the expected deltas, and the final Timer differs from the initial one
only in `last_record`. -/
theorem recordN_spec (ts : List (ℚ × ℚ)) :
    ∀ (t : Timer) (lr : ℚ), t.last_record = some lr → chainFrom lr ts →
    (t.recordN ts).1 = (deltasFrom lr ts).map Except.ok ∧
    (∀ d ∈ deltasFrom lr ts, 0 ≤ d) ∧
    (t.recordN ts).2 = { t with last_record := some (lastSampleFrom lr ts) } := by
  induction ts with
  | nil =>
      intro t lr h _
      obtain ⟨st, lrf, et⟩ := t
      simp only [Timer.recordN, deltasFrom, lastSampleFrom]
      simp only at h
      simp [h]
  | cons p rest ih =>
      obtain ⟨n1, n2⟩ := p
      intro t lr h hc
      obtain ⟨h1, h2, hrest⟩ := hc
      have hrec : t.record n1 n2 =
          (Except.ok (n1 - lr), { t with last_record := some n2 }) := by
        simp [Timer.record, h]
      have hih := ih { t with last_record := some n2 } n2 rfl hrest
      refine ⟨?_, ?_, ?_⟩
      · simp [Timer.recordN, hrec, hih.1, deltasFrom]
      · intro d hd
        simp only [deltasFrom, List.mem_cons] at hd
        rcases hd with hd | hd
        · rw [hd]; exact sub_nonneg.mpr h1
        · exact hih.2.1 d hd
      · simp [Timer.recordN, hrec, hih.2.2, lastSampleFrom]

/-- C4: on a Running Timer (one whose `last_record` timestamp is set,
with value `lr`) and under a monotone clock, N consecutive `record()`
calls each succeed and return the elapsed time since the previous
record-or-start call, every returned delta is ≥ 0, `last_record` is
reset to the current (latest) clock sample, and neither `start_time` nor
`end_time` changes, so the Timer stays Running throughout. -/
theorem timer_record_consecutive (t : Timer) (lr : ℚ) (ts : List (ℚ × ℚ))
    (hrun : t.last_record = some lr) (hchain : chainFrom lr ts) :
    (t.recordN ts).1 = (deltasFrom lr ts).map Except.ok ∧
    (∀ d ∈ deltasFrom lr ts, 0 ≤ d) ∧
    (t.recordN ts).2.start_time = t.start_time ∧
    (t.recordN ts).2.last_record = some (lastSampleFrom lr ts) ∧
    (t.recordN ts).2.end_time = t.end_time := by
  have h := recordN_spec ts t lr hrun hchain
  exact ⟨h.1, h.2.1, by rw [h.2.2], by rw [h.2.2], by rw [h.2.2]⟩

/-- Witness for C4: a Timer started at time 0, with two `record()` calls
sampling (1,1) then (2,3), returns deltas 1 and 1 and stays Running. -/
theorem timer_record_consecutive_witness :
    ((Timer.init.start 0 0).2.recordN [(1, 1), (2, 3)]).1 =
      [Except.ok (1 : ℚ), Except.ok 1] ∧
    ((Timer.init.start 0 0).2.recordN [(1, 1), (2, 3)]).2.start_time = some 0 ∧
    ((Timer.init.start 0 0).2.recordN [(1, 1), (2, 3)]).2.last_record = some 3 := by
  have h := timer_record_consecutive (Timer.init.start 0 0).2 0 [(1, 1), (2, 3)]
    (by simp [Timer.init, Timer.start]) (by norm_num [chainFrom])
  refine ⟨?_, ?_, ?_⟩
  · have h1 := h.1
    norm_num [deltasFrom] at h1
    exact h1
  · have h2 := h.2.2.1
    simpa [Timer.init, Timer.start] using h2
  · have h3 := h.2.2.2.1
    simpa [lastSampleFrom] using h3

/-- Appending a list of steps to a Logger concatenates them onto its
stored sequence. -/
theorem logger_foldl_steps (steps : List LogStep) :
    ∀ acc : List LogStep,
      (steps.foldl Logger.append ⟨acc⟩).steps = acc ++ steps := by
  induction steps with
  | nil => intro acc; simp
  | cons s rest ih =>
      intro acc
      have h := ih (acc ++ [s])
      simpa [Logger.append] using h

/-- C5: appending any sequence of LogStep values to a fresh Logger and
projecting with `Logger.list` yields exactly one field-name-to-value
mapping per step, in insertion order, each mapping sending every field
name to that step's field value (round-trip identity).  The projection
is a pure function of the Logger — it performs no mutation in the model,
matching the source, so repeated calls agree by definitional equality. -/
theorem logger_roundtrip (steps : List LogStep) :
    (steps.foldl Logger.append Logger.init).list = steps.map LogStep.dict ∧
    (steps.foldl Logger.append Logger.init).list.length = steps.length ∧
    ∀ s ∈ steps,
      s.dict.lookup "epoch" = some (MetaVal.int s.epoch) ∧
      s.dict.lookup "eval_acc" = some (MetaVal.rat s.eval_acc) ∧
      s.dict.lookup "sample_time" = some (MetaVal.rat s.sample_time) ∧
      s.dict.lookup "load_time" = some (MetaVal.rat s.load_time) ∧
      s.dict.lookup "forward_time" = some (MetaVal.rat s.forward_time) ∧
      s.dict.lookup "backward_time" = some (MetaVal.rat s.backward_time) ∧
      s.dict.lookup "cur_epoch_time" = some (MetaVal.rat s.cur_epoch_time) ∧
      s.dict.lookup "acc_epoch_time" = some (MetaVal.rat s.acc_epoch_time) ∧
      s.dict.lookup "evaluate_time" = some (MetaVal.rat s.evaluate_time) ∧
      s.dict.lookup "loss" = some (MetaVal.rat s.loss) := by
  have hsteps : (steps.foldl Logger.append Logger.init).steps = steps := by
    simpa using logger_foldl_steps steps []
  refine ⟨by simp [Logger.list, hsteps], by simp [Logger.list, hsteps], ?_⟩
  intro s _
  simp [LogStep.dict, List.lookup]

/-- Witness for C5: two concrete steps round-trip in order. -/
theorem logger_roundtrip_witness :
    ([stepA, stepA].foldl Logger.append Logger.init).list =
      [stepA.dict, stepA.dict] ∧
    stepA.dict.lookup "loss" = some (MetaVal.rat (12 / 10)) := by
  have h := logger_roundtrip [stepA, stepA]
  refine ⟨by simpa using h.1, ?_⟩
  have h2 := (h.2.2 stepA (by simp)).2.2.2.2.2.2.2.2.2
  simpa [stepA] using h2

/-- C6: registering a sequence of Configs and reading the global returns
exactly the Config registered last, and reading before any registration
returns `none` (the unset indicator). -/
theorem global_config_last_write (cs : List Config) (c : Config) :
    get_global_config
      ((cs ++ [c]).foldl (fun g cfg => set_global_config cfg g) gconfigInit) =
        some c ∧
    get_global_config gconfigInit = none := by
  constructor
  · simp [get_global_config, set_global_config, List.foldl_append]
  · rfl

/-- C7: `Dataset.to` replaces exactly `label`, `train_mask`, `val_mask`
and `test_mask` with their device-moved versions (same payload, new
device) and leaves `graph`, `feat`, `num_classes` and `in_feats`
unchanged. -/
theorem dataset_to_frame (d : Dataset) (device : String) :
    (d.to device).graph = d.graph ∧
    (d.to device).feat = d.feat ∧
    (d.to device).num_classes = d.num_classes ∧
    (d.to device).in_feats = d.in_feats ∧
    (d.to device).label = d.label.to device ∧
    (d.to device).train_mask = d.train_mask.to device ∧
    (d.to device).val_mask = d.val_mask.to device ∧
    (d.to device).test_mask = d.test_mask.to device ∧
    (d.to device).label.device = device ∧
    (d.to device).label.data = d.label.data := by
  simp [Dataset.to, Tensor.to]

/-- C8: whenever the CPU probe succeeds, `get_minibatch_meta` copies
`batch_size`, `fanouts`, `graph_name` from the Config and node count,
edge count and feature width from the Dataset into the record
unchanged; at the claim's concrete values the record contains
batch_size = 1024, fanouts = [15,15,15], num_node = 10, num_edge = 20,
feat_width = 8. -/
theorem minibatch_meta_copies (cenv : CpuEnv) (cfg : Config) (ds : Dataset)
    (henv : cenv.returncode = 0)
    (hb : cfg.batch_size = 1024) (hf : cfg.fanouts = [15, 15, 15])
    (hg : cfg.graph_name = "ogbn-arxiv")
    (hn : ds.graph.num_nodes = 10) (he : ds.graph.num_edges = 20)
    (hw : ds.in_feats = 8) :
    ∃ m, get_minibatch_meta cenv cfg ds = Except.ok m ∧
      m.lookup "graph_name" = some (MetaVal.str "ogbn-arxiv") ∧
      m.lookup "batch_size" = some (MetaVal.int 1024) ∧
      m.lookup "fanouts" = some (MetaVal.intList [15, 15, 15]) ∧
      m.lookup "num_node" = some (MetaVal.int 10) ∧
      m.lookup "num_edge" = some (MetaVal.int 20) ∧
      m.lookup "feat_width" = some (MetaVal.int 8) := by
  cases hcpu : get_cpu_model cenv with
  | error e => exact absurd hcpu (by simp [get_cpu_model, henv])
  | ok cpu =>
      refine ⟨[("graph_name", MetaVal.str cfg.graph_name),
               ("train_mode", MetaVal.str "minibatch"),
               ("num_node", MetaVal.int ds.graph.num_nodes),
               ("num_edge", MetaVal.int ds.graph.num_edges),
               ("cpu_model", MetaVal.str cpu),
               ("feat_width", MetaVal.int ds.in_feats),
               ("batch_size", MetaVal.int cfg.batch_size),
               ("fanouts", MetaVal.intList cfg.fanouts),
               ("num_epoch", MetaVal.int cfg.num_epoch),
               ("num_partition", MetaVal.int cfg.num_partition)],
             ?_, ?_, ?_, ?_, ?_, ?_, ?_⟩
      · simp only [get_minibatch_meta, hcpu]
        rfl
      all_goals simp [List.lookup, hb, hf, hg, hn, he, hw]

/-- Witness for C8 at the concrete Config/Dataset fixtures. -/
theorem minibatch_meta_copies_witness :
    ∃ m, get_minibatch_meta cpuEnvOk cfgA dsA = Except.ok m ∧
      m.lookup "batch_size" = some (MetaVal.int 1024) ∧
      m.lookup "fanouts" = some (MetaVal.intList [15, 15, 15]) ∧
      m.lookup "num_node" = some (MetaVal.int 10) := by
  obtain ⟨m, h1, _, h3, h4, h5, _, _⟩ :=
    minibatch_meta_copies cpuEnvOk cfgA dsA rfl rfl rfl rfl rfl rfl rfl
  exact ⟨m, h1, h3, h4, h5⟩

/-- C9: `get_cuda_gpu_model` returns the empty list when the inventory
tool is absent and when it exits non-zero, and on every environment it
returns `Except.ok` (no exception ever escapes), so metadata assembly is
never aborted by the GPU probe. -/
theorem gpu_probe_never_raises (env : GpuEnv) :
    (env = GpuEnv.absent → get_cuda_gpu_model env = Except.ok []) ∧
    (∀ code out err, env = GpuEnv.run code out err → code ≠ 0 →
      get_cuda_gpu_model env = Except.ok []) ∧
    ∃ l, get_cuda_gpu_model env = Except.ok l := by
  refine ⟨?_, ?_, ?_⟩
  · rintro rfl; rfl
  · rintro code out err rfl hc
    simp [get_cuda_gpu_model, hc]
  · cases env with
    | absent => exact ⟨[], rfl⟩
    | run code out err =>
        by_cases hc : code = 0
        · exact ⟨(pyStrip out).splitOn "\n", by simp [get_cuda_gpu_model, hc]⟩
        · exact ⟨[], by simp [get_cuda_gpu_model, hc]⟩

/-- Witness for C9: tool absent and non-zero exit both yield `[]`. -/
theorem gpu_probe_never_raises_witness :
    get_cuda_gpu_model GpuEnv.absent = Except.ok [] ∧
    get_cuda_gpu_model (GpuEnv.run 1 "" "no devices") = Except.ok [] := by
  refine ⟨(gpu_probe_never_raises GpuEnv.absent).1 rfl, ?_⟩
  exact (gpu_probe_never_raises (GpuEnv.run 1 "" "no devices")).2.1
    1 "" "no devices" rfl (by decide)

/-- C10: for every argument object, `Config.__init__` never assigns the
declared `world_size` attribute, so reading it yields an attribute
error (`none` in the `getattr` model), while every other declared field
is assigned from the corresponding argument. -/
theorem config_world_size_unassigned (args : Args) :
    "world_size" ∈ configDeclaredFields ∧
    (Config.initAttrs args).lookup "world_size" = none ∧
    (Config.initAttrs args).lookup "sample_mode" =
      some (MetaVal.str args.sample_mode) ∧
    (Config.initAttrs args).lookup "batch_size" =
      some (MetaVal.int args.batch_size) ∧
    (Config.initAttrs args).lookup "fanouts" =
      some (MetaVal.intList args.fanouts) ∧
    (Config.initAttrs args).lookup "num_epoch" =
      some (MetaVal.int args.num_epoch) ∧
    (Config.initAttrs args).lookup "hid_size" =
      some (MetaVal.int args.hid_size) ∧
    (Config.initAttrs args).lookup "num_head" =
      some (MetaVal.int args.num_head) ∧
    (Config.initAttrs args).lookup "lr" = some (MetaVal.rat args.lr) ∧
    (Config.initAttrs args).lookup "weight_decay" =
      some (MetaVal.rat args.weight_decay) ∧
    (Config.initAttrs args).lookup "dropout" =
      some (MetaVal.rat args.dropout) ∧
    (Config.initAttrs args).lookup "num_partition" =
      some (MetaVal.int args.num_partition) ∧
    (Config.initAttrs args).lookup "graph_name" =
      some (MetaVal.str args.graph_name) ∧
    (Config.initAttrs args).lookup "data_dir" =
      some (MetaVal.str args.data_dir) ∧
    (Config.initAttrs args).lookup "model" =
      some (MetaVal.str args.model) ∧
    (Config.initAttrs args).lookup "log_file" =
      some (MetaVal.str args.log_file) ∧
    (Config.initAttrs args).lookup "eval" =
      some (MetaVal.bool args.eval) := by
  refine ⟨by simp [configDeclaredFields], ?_⟩
  simp [Config.initAttrs, List.lookup]

/-- C1 counterexample: with `lscpu` absent (shell exit 127) the CPU
probe's `CalledProcessError` propagates out of all three builders —
assembly is aborted, contradicting the claim that probe failures are
non-fatal for every metadata-assembly call. -/
theorem cpu_probe_failure_counterexample :
    get_full_meta cpuEnvFail cfgA dsA =
      Except.error
        "CalledProcessError: command lscpu returned non-zero exit status" ∧
    get_minibatch_meta cpuEnvFail cfgA dsA =
      Except.error
        "CalledProcessError: command lscpu returned non-zero exit status" ∧
    get_quiver_meta cpuEnvFail GpuEnv.absent cfgA dsA =
      Except.error
        "CalledProcessError: command lscpu returned non-zero exit status" := by
  refine ⟨rfl, rfl, rfl⟩

/-- C1 amended: probe-failure handling is asymmetric.  A GPU-probe
failure is non-fatal — `get_quiver_meta`'s `gpu_model` field degrades to
the empty list and assembly continues — but a CPU-probe failure
(`lscpu` absent or exiting non-zero) raises `CalledProcessError` out of
`get_full_meta`, `get_minibatch_meta` and `get_quiver_meta`, aborting
assembly. -/
theorem metadata_probe_failure_amended (cenv : CpuEnv) (genv : GpuEnv)
    (cfg : Config) (ds : Dataset) (hc : cenv.returncode ≠ 0) :
    get_full_meta cenv cfg ds =
      Except.error
        "CalledProcessError: command lscpu returned non-zero exit status" ∧
    get_minibatch_meta cenv cfg ds =
      Except.error
        "CalledProcessError: command lscpu returned non-zero exit status" ∧
    get_quiver_meta cenv genv cfg ds =
      Except.error
        "CalledProcessError: command lscpu returned non-zero exit status" ∧
    (∀ cenv2 : CpuEnv, cenv2.returncode = 0 →
      ∃ m, get_quiver_meta cenv2 GpuEnv.absent cfg ds = Except.ok m ∧
        m.lookup "gpu_model" = some (MetaVal.strList []) ∧
        ∀ code out err : _, code ≠ 0 →
          get_quiver_meta cenv2 (GpuEnv.run code out err) cfg ds =
            Except.ok m) := by
  have hcpu : get_cpu_model cenv =
      Except.error
        "CalledProcessError: command lscpu returned non-zero exit status" := by
    simp [get_cpu_model, hc]
  refine ⟨?_, ?_, ?_, ?_⟩
  · simp only [get_full_meta, hcpu]
    rfl
  · simp only [get_minibatch_meta, hcpu]
    rfl
  · simp only [get_quiver_meta, hcpu]
    rfl
  · intro cenv2 h2
    cases hcpu2 : get_cpu_model cenv2 with
    | error e => exact absurd hcpu2 (by simp [get_cpu_model, h2])
    | ok cpu =>
        refine ⟨[("graph_name", MetaVal.str cfg.graph_name),
                 ("system_name", MetaVal.str "quiver"),
                 ("train_mode", MetaVal.str "minibatch"),
                 ("sample_mode", MetaVal.str cfg.sample_mode),
                 ("num_node", MetaVal.int ds.graph.num_nodes),
                 ("num_edge", MetaVal.int ds.graph.num_edges),
                 ("cpu_model", MetaVal.str cpu),
                 ("gpu_model", MetaVal.strList []),
                 ("feat_width", MetaVal.int ds.in_feats),
                 ("batch_size", MetaVal.int cfg.batch_size),
                 ("fanouts", MetaVal.intList cfg.fanouts),
                 ("num_epoch", MetaVal.int cfg.num_epoch),
                 ("num_partition", MetaVal.int cfg.num_partition)],
               ?_, ?_, ?_⟩
        · simp only [get_quiver_meta, hcpu2]
          rfl
        · simp [List.lookup]
        · intro code out err hcode
          simp only [get_quiver_meta, hcpu2, get_cuda_gpu_model, hcode,
            if_true, ne_eq, not_false_eq_true, if_pos]
          rfl

/-- Witness for the amended C1: `lscpu` exiting 127 aborts
`get_full_meta` on the concrete fixtures, while with a healthy CPU probe
and `nvidia-smi` absent `get_quiver_meta` still succeeds with an empty
`gpu_model`. -/
theorem metadata_probe_failure_amended_witness :
    get_full_meta cpuEnvFail cfgA dsA =
      Except.error
        "CalledProcessError: command lscpu returned non-zero exit status" ∧
    ∃ m, get_quiver_meta cpuEnvOk GpuEnv.absent cfgA dsA = Except.ok m ∧
      m.lookup "gpu_model" = some (MetaVal.strList []) := by
  have h := metadata_probe_failure_amended cpuEnvFail GpuEnv.absent cfgA dsA
    (by decide)
  refine ⟨h.1, ?_⟩
  obtain ⟨m, hm1, hm2, _⟩ := h.2.2.2 cpuEnvOk rfl
  exact ⟨m, hm1, hm2⟩

end Pebble
